import Mathlib

/-! Session todo lists: the request handlers of `todos.js`.

A shallow embedding of the route handlers of `src/todos.js` together with the
parts of the session store they call, and the properties of the specification
that concern them.

Conventions of the embedding.

* A handler is a function from the session (as it is once the two middleware
  functions of lines 37-47 have run) and the request data to an `Outcome`
  and the session afterwards.
* Objects held in the session are mutated in place by the JavaScript code.
  A lookup by id returns the first stored list with that id; a write to the
  stored object is modelled by `updateTodoList`, which rewrites that first
  stored list.
* Whether the object that `store.loadTodoList` hands to a handler is the
  stored list itself or a copy of it is decided in
  `lib/session-persistence.js`; the specification does not say. Where a
  handler assigns to a field of such an object and keeps the session, this is
  a parameter of the handler.
* Route parameters are run through unary `+` in the source; they are modelled
  as integers, as are the ids stored on lists and todos.
* `lib/todolist.js` and `lib/session-persistence.js` are not part of the
  sources at hand; what the handlers need of them is modelled from the
  specification and marked as such.
-/

namespace Todos

/-! ## Data model -/

/-- A todo item: `id`, `title` and the completion flag `done`. -/
structure Todo where
  id : Int
  title : String
  done : Bool
deriving DecidableEq, Repr

/-- A todo list: `id`, `title` and its ordered `todos`. -/
structure TodoList where
  id : Int
  title : String
  todos : List Todo
deriving DecidableEq, Repr

/-- One flash message: its type (`"error"`, `"success"`) and its text. -/
abbrev Flash := String × String

/-- The session data the handlers read and write: `req.session.todoLists` and
`req.session.flash`. -/
structure Session where
  todoLists : List TodoList
  flash : List Flash
deriving DecidableEq, Repr

/-- JavaScript errors that reach Express: `new Error(message)` built by the
code, a `ReferenceError` for an identifier with no binding, and a `TypeError`
for a property read on `undefined`. -/
inductive JsError where
  | error (message : String)
  | referenceError (name : String)
  | typeError (message : String)
deriving DecidableEq, Repr

/-- The text of `err.message`. -/
def JsError.message : JsError → String
  | .error m => m
  | .referenceError n => n ++ " is not defined"
  | .typeError m => m

/-- Targets of `res.redirect`: `/lists` and `/lists/<todoListId>`. -/
inductive Path where
  | lists
  | list (todoListId : Int)
deriving DecidableEq, Repr

/-- Per-list counts built by the all-lists view (lines 69-73). -/
structure TodosInfo where
  countAllTodos : Nat
  countDoneTodos : Nat
  isDone : Bool
deriving DecidableEq, Repr

/-- The value found in the `todos` field of a list handed to the `list` view.
The field is dynamically typed in the source: line 199 stores a sequence of
todos in it, line 126 stores a sequence of todo lists. -/
inductive TodosValue where
  | todos (items : List Todo)
  | todoLists (items : List TodoList)
deriving DecidableEq, Repr

/-- The `todoList` local of the `list` view: the list that was looked up, with
its `todos` field as assigned by the handler. -/
structure ListLocal where
  id : Int
  title : String
  todos : TodosValue
deriving DecidableEq, Repr

/-- The views rendered by the handlers, with the locals the properties below
speak about (`isDoneTodoList` and `hasUndoneTodos` of the `list` view are not
part of the model). -/
inductive View where
  | lists (todoLists : List TodoList) (todosInfo : List TodosInfo)
  | newList (flash : List Flash) (todoListTitle : String)
  | list (todoList : ListLocal) (todoTitle : Option String) (flash : List Flash)
  | editList (flash : List Flash) (todoListTitle : String) (todoList : TodoList)
deriving DecidableEq, Repr

/-- How a handler ends: `res.render`, `res.redirect`, `next(err)`, or an
exception that escapes the handler (Express passes it to the error handler
as well). -/
inductive Outcome where
  | render (view : View)
  | redirect (path : Path)
  | next (err : JsError)
  | thrown (err : JsError)
deriving DecidableEq, Repr

/-- The error handler of lines 287-291: status 404 and `err.message`. -/
def errorHandler (err : JsError) : Nat × String := (404, err.message)

/-- The middleware of lines 42-47: the flash messages of the previous request
move to `res.locals.flash` and are deleted from the session. -/
def extractSessionInfo (s : Session) : List Flash × Session :=
  (s.flash, { s with flash := [] })

/-- `req.flash(type, msg)`: the message is queued in the session. -/
def Session.addFlash (s : Session) (type msg : String) : Session :=
  { s with flash := s.flash ++ [(type, msg)] }

/-- `req.flash()` without arguments: returns the queued messages and empties
the queue. -/
def Session.takeFlash (s : Session) : List Flash × Session :=
  (s.flash, { s with flash := [] })

/-! ## Validation of a submitted title (express-validator chains) -/

/-- White space in the sense of the JavaScript regular expression class `\s`,
which the `trim` sanitizer strips. -/
def isJsWhitespace (c : Char) : Bool :=
  let n := c.toNat
  (9 ≤ n && n ≤ 13) || n == 32 || n == 160 || n == 5760 ||
  (8192 ≤ n && n ≤ 8202) || n == 8232 || n == 8233 || n == 8239 ||
  n == 8287 || n == 12288 || n == 65279

/-- The `trim()` sanitizer on the characters of the field. -/
def trimChars (cs : List Char) : List Char :=
  ((cs.dropWhile isJsWhitespace).reverse.dropWhile isJsWhitespace).reverse

/-- The `trim()` sanitizer: white space is removed at both ends. -/
def trim (s : String) : String := ⟨trimChars s.data⟩

/-- The custom validator of lines 96-100 and 256-260:
`todoLists.find(list => list.title === title)` and the test
`duplicate === undefined`. True when the title passes. -/
def titleIsUnique (todoLists : List TodoList) (title : String) : Bool :=
  (todoLists.find? (fun list => list.title == title)).isNone

/-- The validation chain on `todoListTitle` (lines 90-101 and 250-261), applied
to the sanitized title: every validator runs, and each failure contributes its
message, in the order of the chain. -/
def todoListTitleErrors (todoLists : List TodoList) (title : String) : List String :=
  (if 1 ≤ title.length then [] else ["The list title is required."]) ++
  (if title.length ≤ 100 then [] else
    ["List title must be between 1 and 100 characters."]) ++
  (if titleIsUnique todoLists title then [] else ["List title must be unique."])

/-- The validation chain on `todoTitle` (lines 181-186). -/
def todoTitleErrors (title : String) : List String :=
  (if 1 ≤ title.length then [] else ["The todo title is required."]) ++
  (if title.length ≤ 100 then [] else
    ["Todo title must be between 1 and 100 characters."])

/-- The loop `errors.array().forEach(message => req.flash("error", message.msg))`. -/
def flashErrors (s : Session) (errors : List String) : Session :=
  errors.foldl (fun acc msg => acc.addFlash "error" msg) s

/-! ## The entity and store operations the handlers call -/

/-- Modelled from the spec: the constructor `new TodoList(title)` of
`lib/todolist.js`, which is missing. The id comes from a counter whose next
value is passed in; `todos` starts empty. -/
def TodoList.create (newId : Int) (title : String) : TodoList :=
  { id := newId, title := title, todos := [] }

/-- Modelled from the spec: `setTitle(newTitle)` of `lib/todolist.js`, which is
missing. It replaces the title and nothing else. -/
def TodoList.setTitle (l : TodoList) (title : String) : TodoList :=
  { l with title := title }

/-- Modelled from the spec: `store.loadTodoList(listId)` of
`lib/session-persistence.js`, which is missing. A lookup by id that returns the
stored list or nothing. -/
def Store.loadTodoList (todoLists : List TodoList) (todoListId : Int) : Option TodoList :=
  todoLists.find? (fun todoList => todoList.id == todoListId)

/-- A write through the object returned by a lookup by id: the first stored
list with that id is replaced by its image under `f`. -/
def updateTodoList (f : TodoList → TodoList) (todoListId : Int) :
    List TodoList → List TodoList
  | [] => []
  | l :: ls =>
    if l.id == todoListId then f l :: ls else l :: updateTodoList f todoListId ls

/-- Modelled from the spec: the per-item write that goes with `updateTodoList`,
for `lib/todolist.js`, which is missing: the first todo with the id is replaced
by its image under `f`. -/
def updateTodo (f : Todo → Todo) (todoId : Int) : List Todo → List Todo
  | [] => []
  | t :: ts => if t.id == todoId then f t :: ts else t :: updateTodo f todoId ts

/-- Modelled from the spec: `toggleDone()` of the todo entity, which is
missing. It flips `done`. -/
def Todo.toggleDone (t : Todo) : Todo := { t with done := !t.done }

/-- Modelled from the spec: `store.isDoneTodoList(list)`, which is missing.
True when the list is non-empty and every item is done. -/
def Store.isDoneTodoList (l : TodoList) : Bool :=
  !l.todos.isEmpty && l.todos.all (fun todo => todo.done)

/-- Modelled from the spec: the key of the case-insensitive comparison by
title, for the missing sort helpers: the code points of the lower-cased
title. -/
def titleKey (title : String) : List Nat :=
  title.data.map (fun c => c.toLower.toNat)

/-- Lexicographic "less than or equal" on keys. -/
def lexLe : List Nat → List Nat → Bool
  | [], _ => true
  | _ :: _, [] => false
  | a :: as, b :: bs => a < b || (a == b && lexLe as bs)

/-- Insertion of `x` in front of the first element whose key is not smaller. -/
def insertByTitle {α : Type} (title : α → String) (x : α) : List α → List α
  | [] => [x]
  | y :: ys =>
    if lexLe (titleKey (title x)) (titleKey (title y)) then x :: y :: ys
    else y :: insertByTitle title x ys

/-- Modelled from the spec: the ordering by title of the missing sort helpers:
a stable sort by `titleKey`, so that ties keep their insertion order. -/
def sortByTitle {α : Type} (title : α → String) (xs : List α) : List α :=
  xs.foldr (insertByTitle title) []

/-- Modelled from the spec: `store.sortedTodos(list)`, which is missing:
undone items first, done items after, each group ordered by title. -/
def Store.sortedTodos (l : TodoList) : List Todo :=
  sortByTitle Todo.title (l.todos.filter (fun todo => !todo.done)) ++
  sortByTitle Todo.title (l.todos.filter (fun todo => todo.done))

/-- Modelled from the spec: `store.sortedTodoLists()`, which is missing: the
lists that are not done first, the done lists after, each group ordered by
title. -/
def Store.sortedTodoLists (todoLists : List TodoList) : List TodoList :=
  sortByTitle TodoList.title (todoLists.filter (fun l => !Store.isDoneTodoList l)) ++
  sortByTitle TodoList.title (todoLists.filter (fun l => Store.isDoneTodoList l))

/-- Modelled from the spec: `store.loadTodo(listId, todoId)`, which is missing:
lookup by list id, then by item id; nothing if either lookup misses. -/
def Store.loadTodo (todoLists : List TodoList) (todoListId todoId : Int) : Option Todo :=
  match Store.loadTodoList todoLists todoListId with
  | none => none
  | some todoList => todoList.todos.find? (fun todo => todo.id == todoId)

/-- Modelled from the spec: `store.toggleDoneTodo(listId, todoId)`, which is
missing: finds the item; if found, toggles `done` and returns true; else
returns false and changes nothing. -/
def Store.toggleDoneTodo (todoLists : List TodoList) (todoListId todoId : Int) :
    Bool × List TodoList :=
  match Store.loadTodo todoLists todoListId todoId with
  | none => (false, todoLists)
  | some _ =>
    (true, updateTodoList
      (fun l => { l with todos := updateTodo Todo.toggleDone todoId l.todos })
      todoListId todoLists)

/-- Modelled from the spec: `store.createTodo(listId, title)`, which is
missing: finds the list; if found, appends a new undone item with the title
and returns true; else returns false. The item id comes from a counter whose
next value is passed in. -/
def Store.createTodo (newId : Int) (todoLists : List TodoList) (todoListId : Int)
    (title : String) : Bool × List TodoList :=
  match Store.loadTodoList todoLists todoListId with
  | none => (false, todoLists)
  | some _ =>
    (true, updateTodoList
      (fun l => { l with todos := l.todos ++ [{ id := newId, title := title, done := false }] })
      todoListId todoLists)

/-! ## Module-level helpers of `todos.js` -/

/-- The call `loadTodoList(todoListId, todoLists)` of lines 53 and 265.
`todos.js` has no declaration, parameter or `require` that binds the identifier
`loadTodoList` (the only `loadTodoList` in reach is the method of
`res.locals.store`), so evaluating the call raises a `ReferenceError`. -/
def loadTodoList (_todoListId : Int) (_todoLists : List TodoList) :
    Except JsError (Option TodoList) :=
  .error (.referenceError "loadTodoList")

/-- The lookup that the comment of lines 49-51 and the specification describe
for `loadTodoList`: the first list with the id, or nothing. Kept apart from
`loadTodoList` for comparison. -/
def findTodoList (todoListId : Int) (todoLists : List TodoList) :
    Except JsError (Option TodoList) :=
  .ok (todoLists.find? (fun todoList => todoList.id == todoListId))

/-- The body of `loadTodo` (lines 52-57), with the callee of line 53 as a
parameter. -/
def loadTodoWith (lookup : Int → List TodoList → Except JsError (Option TodoList))
    (todoListId todoId : Int) (todoLists : List TodoList) : Except JsError (Option Todo) :=
  match lookup todoListId todoLists with
  | .error e => .error e
  | .ok none => .ok none
  | .ok (some todoList) => .ok (todoList.todos.find? (fun todo => todo.id == todoId))

/-- The module-level `loadTodo` of lines 52-57. -/
def loadTodo (todoListId todoId : Int) (todoLists : List TodoList) :
    Except JsError (Option Todo) :=
  loadTodoWith loadTodoList todoListId todoId todoLists

/-- `Array.prototype.findIndex`, with `none` for the result `-1`. -/
def findIndex {α : Type} (p : α → Bool) : List α → Option Nat
  | [] => none
  | x :: xs => if p x then some 0 else (findIndex p xs).map (· + 1)

/-! ## Route handlers -/

/-- The handler of `GET /lists` (lines 64-80). -/
def getLists (s : Session) : Outcome :=
  let todoLists := Store.sortedTodoLists s.todoLists
  let todosInfo := todoLists.map (fun todoList =>
    { countAllTodos := todoList.todos.length
      countDoneTodos := (todoList.todos.filter (fun todo => todo.done)).length
      isDone := Store.isDoneTodoList todoList : TodosInfo })
  .render (.lists todoLists todosInfo)

/-- The handler of `POST /lists` (lines 87-117). `newId` is the id the
constructor of the new list draws. -/
def postLists (newId : Int) (s : Session) (rawTitle : String) : Outcome × Session :=
  let title := trim rawTitle
  let errors := todoListTitleErrors s.todoLists title
  if errors.isEmpty then
    let s1 := { s with todoLists := s.todoLists ++ [TodoList.create newId title] }
    (.redirect .lists, s1.addFlash "success" "The todo list has been created.")
  else
    let r := (flashErrors s errors).takeFlash
    (.render (.newList r.1 title), r.2)

/-- The handler of `GET /lists/:todoListId` (lines 119-134), as far as the
response goes; the session afterwards is not part of this definition.
Line 126 assigns the result of `sortedTodoLists` to the `todos` field of the
object that `store.loadTodoList` returned (the argument passed there is
ignored by a method without parameters). -/
def getList (s : Session) (todoListId : Int) : Outcome :=
  match Store.loadTodoList s.todoLists todoListId with
  | none => .next (.error "Not found.")
  | some todoList =>
    .render (.list
      { id := todoList.id, title := todoList.title
        todos := .todoLists (Store.sortedTodoLists s.todoLists) }
      none [])

/-- The handler of `POST /lists/:todoListId/todos/:todoId/toggle`
(lines 136-152). The template literals of lines 145 and 147 read the
identifier `title`, which has no binding in `todos.js`. -/
def postToggle (s : Session) (todoListId todoId : Int) : Outcome × Session :=
  let r := Store.toggleDoneTodo s.todoLists todoListId todoId
  let s1 := { s with todoLists := r.2 }
  if !r.1 then
    (.next (.error "Not found."), s1)
  else
    match Store.loadTodo s1.todoLists todoListId todoId with
    | none => (.thrown (.typeError "Cannot read properties of undefined"), s1)
    | some todo =>
      if todo.done then (.thrown (.referenceError "title"), s1)
      else (.thrown (.referenceError "title"), s1)

/-- The handler of `POST /lists/:todoListId/todos` (lines 178-219). `newId` is
the id the new todo draws. In the validation-failure branch line 199 assigns
the sorted todos to the `todos` field of the object that
`store.loadTodoList` returned. `sharesStoredList` says whether that object is
the list stored in the session (the assignment then reaches the session) or a
copy of it (the session is not touched); the sources at hand and the
specification leave this open. -/
def postTodos (sharesStoredList : Bool) (newId : Int) (s : Session) (todoListId : Int)
    (rawTitle : String) : Outcome × Session :=
  let todoTitle := trim rawTitle
  match Store.loadTodoList s.todoLists todoListId with
  | none => (.next (.error "Not found."), s)
  | some todoList =>
    let errors := todoTitleErrors todoTitle
    if errors.isEmpty then
      let r := Store.createTodo newId s.todoLists todoListId todoTitle
      let s1 := { s with todoLists := r.2 }
      if !r.1 then (.next (.error "Not found."), s1)
      else (.redirect (.list todoListId), s1.addFlash "success" "The todo has been created.")
    else
      let s1 := flashErrors s errors
      let sorted := Store.sortedTodos todoList
      let s2 :=
        if sharesStoredList then
          { s1 with
            todoLists :=
              updateTodoList (fun l => { l with todos := sorted }) todoListId s1.todoLists }
        else s1
      let r := s2.takeFlash
      (.render (.list { id := todoList.id, title := todoList.title, todos := .todos sorted }
        (some todoTitle) r.1), r.2)

/-- The handler of `POST /lists/:todoListId/destroy` (lines 232-245). -/
def postListsDestroy (s : Session) (todoListId : Int) : Outcome × Session :=
  match findIndex (fun todoList : TodoList => todoList.id == todoListId) s.todoLists with
  | none => (.next (.error "Not found."), s)
  | some index =>
    let s1 := { s with todoLists := s.todoLists.eraseIdx index }
    (.redirect .lists, s1.addFlash "success" "Todo list deleted.")

/-- The route `POST /lists/:todoListId/edit` (lines 247-285), with the callee
of line 265 as a parameter. The validation chain runs first, on the whole
collection; `setTitle` writes through the list that was looked up. -/
def postListsEditWith (lookup : Int → List TodoList → Except JsError (Option TodoList))
    (s : Session) (todoListId : Int) (rawTitle : String) : Outcome × Session :=
  let title := trim rawTitle
  let errors := todoListTitleErrors s.todoLists title
  match lookup todoListId s.todoLists with
  | .error e => (.thrown e, s)
  | .ok none => (.next (.error "Not found."), s)
  | .ok (some todoList) =>
    if errors.isEmpty then
      let s1 := { s with
        todoLists := updateTodoList (fun l => l.setTitle title) todoList.id s.todoLists }
      (.redirect (.list todoListId), s1.addFlash "success" "Todo list updated.")
    else
      let r := (flashErrors s errors).takeFlash
      (.render (.editList r.1 title todoList), r.2)

/-- The route `POST /lists/:todoListId/edit` as written: line 265 calls
`loadTodoList`. -/
def postListsEdit (s : Session) (todoListId : Int) (rawTitle : String) : Outcome × Session :=
  postListsEditWith loadTodoList s todoListId rawTitle

/-- The titles of a collection, in order. -/
def titles (todoLists : List TodoList) : List String := todoLists.map TodoList.title

/-! ## Sample data -/

/-- A todo list "Work" with a done todo "Email" stored before an undone
todo "Call". -/
def workList : TodoList :=
  { id := 1, title := "Work",
    todos := [{ id := 1, title := "Email", done := true },
              { id := 2, title := "Call", done := false }] }

/-- An empty todo list "Home". -/
def homeList : TodoList := { id := 2, title := "Home", todos := [] }

/-- A session holding `workList` and `homeList`. -/
def sampleSession : Session := { todoLists := [workList, homeList], flash := [] }

/-! ## Auxiliary facts -/

theorem titleIsUnique_iff (todoLists : List TodoList) (title : String) :
    titleIsUnique todoLists title = true ↔ ¬ ∃ l ∈ todoLists, l.title = title := by
  unfold titleIsUnique
  rw [Option.isNone_iff_eq_none, List.find?_eq_none]
  constructor
  · rintro h ⟨l, hl, ht⟩
    exact h l hl (by simp [ht])
  · intro h l hl hp
    exact h ⟨l, hl, by simpa using hp⟩

theorem todoListTitleErrors_of_length (todoLists : List TodoList) (title : String)
    (h1 : 1 ≤ title.length) (h2 : title.length ≤ 100) :
    todoListTitleErrors todoLists title =
      if titleIsUnique todoLists title then [] else ["List title must be unique."] := by
  simp [todoListTitleErrors, h1, h2]

theorem todoListTitleErrors_nil (todoLists : List TodoList) (title : String)
    (h : todoListTitleErrors todoLists title = []) : titleIsUnique todoLists title = true := by
  unfold todoListTitleErrors at h
  by_contra hu
  simp [hu] at h

theorem flashErrors_todoLists (s : Session) (errors : List String) :
    (flashErrors s errors).todoLists = s.todoLists := by
  unfold flashErrors
  induction errors generalizing s with
  | nil => rfl
  | cons e es ih => simpa [Session.addFlash] using ih (s.addFlash "error" e)

theorem findIndex_none {α : Type} (p : α → Bool) (xs : List α) :
    findIndex p xs = none ↔ ∀ x ∈ xs, p x = false := by
  induction xs with
  | nil => simp [findIndex]
  | cons x xs ih =>
    by_cases hx : p x = true
    · simp [findIndex, hx]
    · simp [findIndex, hx, ih]

theorem findIndex_some {α : Type} (p : α → Bool) (xs : List α) (i : Nat)
    (h : findIndex p xs = some i) :
    ∃ pre x post, xs = pre ++ x :: post ∧ p x = true ∧ (∀ y ∈ pre, p y = false) ∧
      xs.eraseIdx i = pre ++ post := by
  induction xs generalizing i with
  | nil => simp [findIndex] at h
  | cons x xs ih =>
    by_cases hx : p x = true
    · simp [findIndex, hx] at h
      subst h
      exact ⟨[], x, xs, rfl, hx, by simp, rfl⟩
    · simp only [findIndex, hx] at h
      cases hj : findIndex p xs with
      | none => simp [hj] at h
      | some j =>
        simp [hj] at h
        subst h
        obtain ⟨pre, y, post, hxs, hy, hpre, her⟩ := ih j hj
        refine ⟨x :: pre, y, post, by simp [hxs], hy, ?_, by simp [her]⟩
        intro z hz
        rcases List.mem_cons.1 hz with rfl | hz
        · simpa using hx
        · exact hpre z hz

theorem mem_titles_updateTodoList (title : String) (todoListId : Int)
    (todoLists : List TodoList) (x : String)
    (h : x ∈ titles (updateTodoList (fun l => l.setTitle title) todoListId todoLists)) :
    x ∈ titles todoLists ∨ x = title := by
  induction todoLists with
  | nil => simp [updateTodoList, titles] at h
  | cons l ls ih =>
    by_cases hl : l.id = todoListId
    · simp [updateTodoList, hl, titles, TodoList.setTitle] at h
      rcases h with h | h
      · exact Or.inr h
      · exact Or.inl (by simpa [titles] using Or.inr h)
    · simp only [updateTodoList, beq_iff_eq, hl, if_false, titles, List.map_cons,
        List.mem_cons] at h
      rcases h with h | h
      · exact Or.inl (by simp [titles, h])
      · rcases ih (by simpa [titles] using h) with h | h
        · exact Or.inl (by simpa [titles] using Or.inr (by simpa [titles] using h))
        · exact Or.inr h

theorem nodup_titles_updateTodoList (title : String) (todoListId : Int)
    (todoLists : List TodoList) (hn : (titles todoLists).Nodup)
    (ht : title ∉ titles todoLists) :
    (titles (updateTodoList (fun l => l.setTitle title) todoListId todoLists)).Nodup := by
  induction todoLists with
  | nil => simp [updateTodoList, titles]
  | cons l ls ih =>
    have hn2 : l.title ∉ titles ls ∧ (titles ls).Nodup := by
      simpa [titles] using hn
    have ht2 : title ≠ l.title ∧ title ∉ titles ls := by
      simpa [titles] using ht
    by_cases hl : l.id = todoListId
    · have : titles (updateTodoList (fun l => l.setTitle title) todoListId (l :: ls))
          = title :: titles ls := by
        simp [updateTodoList, hl, titles, TodoList.setTitle]
      rw [this]
      exact List.nodup_cons.2 ⟨ht2.2, hn2.2⟩
    · have : titles (updateTodoList (fun l => l.setTitle title) todoListId (l :: ls))
          = l.title :: titles (updateTodoList (fun l => l.setTitle title) todoListId ls) := by
        simp [updateTodoList, hl, titles]
      rw [this]
      refine List.nodup_cons.2 ⟨?_, ih hn2.2 ht2.2⟩
      intro hm
      rcases mem_titles_updateTodoList title todoListId ls _ hm with h | h
      · exact hn2.1 h
      · exact ht2.1 h.symm

theorem not_mem_titles_of_unique (todoLists : List TodoList) (title : String)
    (h : titleIsUnique todoLists title = true) : title ∉ titles todoLists := by
  intro hm
  obtain ⟨l, hl, ht⟩ := List.mem_map.1 hm
  exact (titleIsUnique_iff todoLists title).1 h ⟨l, hl, ht⟩

theorem postLists_nodup (newId : Int) (s : Session) (rawTitle : String)
    (h : (titles s.todoLists).Nodup) :
    (titles (postLists newId s rawTitle).2.todoLists).Nodup := by
  unfold postLists
  by_cases he : (todoListTitleErrors s.todoLists (trim rawTitle)).isEmpty = true
  · have hu := todoListTitleErrors_nil _ _ (List.isEmpty_iff.1 he)
    have hm := not_mem_titles_of_unique _ _ hu
    simp only [he, if_true, Session.addFlash, titles, List.map_append, List.map_cons,
      List.map_nil, TodoList.create]
    rw [List.nodup_append]
    refine ⟨h, by simp, ?_⟩
    intro a ha hb
    have : a = trim rawTitle := by simpa using hb
    exact hm (this ▸ ha)
  · simp only [he, Session.takeFlash, flashErrors_todoLists]
    exact h

theorem postListsEditWith_nodup
    (lookup : Int → List TodoList → Except JsError (Option TodoList))
    (s : Session) (todoListId : Int) (rawTitle : String)
    (h : (titles s.todoLists).Nodup) :
    (titles (postListsEditWith lookup s todoListId rawTitle).2.todoLists).Nodup := by
  unfold postListsEditWith
  cases hlk : lookup todoListId s.todoLists with
  | error e => exact h
  | ok r =>
    cases r with
    | none => exact h
    | some todoList =>
      by_cases he : (todoListTitleErrors s.todoLists (trim rawTitle)).isEmpty = true
      · have hu := todoListTitleErrors_nil _ _ (List.isEmpty_iff.1 he)
        have hm := not_mem_titles_of_unique _ _ hu
        simp only [he, if_true, Session.addFlash]
        exact nodup_titles_updateTodoList _ _ _ h hm
      · simp only [he, Session.takeFlash, flashErrors_todoLists]
        exact h

theorem postListsDestroy_nodup (s : Session) (todoListId : Int)
    (h : (titles s.todoLists).Nodup) :
    (titles (postListsDestroy s todoListId).2.todoLists).Nodup := by
  unfold postListsDestroy
  cases hi : findIndex (fun todoList : TodoList => todoList.id == todoListId) s.todoLists with
  | none => exact h
  | some i =>
    simp only [Session.addFlash, titles]
    exact List.Nodup.sublist ((List.eraseIdx_sublist _ _).map _) h

theorem postListsEditWith_invalid
    (lookup : Int → List TodoList → Except JsError (Option TodoList))
    (s : Session) (todoListId : Int) (rawTitle : String)
    (he : (todoListTitleErrors s.todoLists (trim rawTitle)).isEmpty = false) :
    (∀ p, (postListsEditWith lookup s todoListId rawTitle).1 ≠ .redirect p) ∧
    (postListsEditWith lookup s todoListId rawTitle).2.todoLists = s.todoLists := by
  cases hlk : lookup todoListId s.todoLists with
  | error e => simp [postListsEditWith, hlk]
  | ok r =>
    cases r with
    | none => simp [postListsEditWith, hlk]
    | some todoList =>
      simp [postListsEditWith, hlk, he, Session.takeFlash, flashErrors_todoLists]

/-- The route as written ends in the `ReferenceError` of line 265, whatever the
request, and leaves the session as it was. -/
theorem postListsEdit_raises (s : Session) (todoListId : Int) (rawTitle : String) :
    postListsEdit s todoListId rawTitle = (.thrown (.referenceError "loadTodoList"), s) := rfl

/-- The module-level `loadTodo` ends in the `ReferenceError` of line 53 on every
input. -/
theorem loadTodo_raises (todoListId todoId : Int) (todoLists : List TodoList) :
    loadTodo todoListId todoId todoLists = .error (.referenceError "loadTodoList") := rfl

/-- With the lookup by id in place of the unbound callee, `loadTodoWith` never
raises and misses exactly when the list or the todo is missing. -/
theorem loadTodoWith_findTodoList (todoListId todoId : Int) (todoLists : List TodoList) :
    ∃ r, loadTodoWith findTodoList todoListId todoId todoLists = .ok r ∧
      (r = none ↔ ∀ l, todoLists.find? (fun x => x.id == todoListId) = some l →
        ∀ t ∈ l.todos, t.id ≠ todoId) := by
  unfold loadTodoWith findTodoList
  cases hf : todoLists.find? (fun x => x.id == todoListId) with
  | none => exact ⟨none, rfl, by simp⟩
  | some l =>
    refine ⟨_, rfl, ?_⟩
    simp [List.find?_eq_none]

/-- The single-list view renders the sorted collection of lists in the `todos`
field, for every session and every id of an existing list. -/
theorem getList_renders_todoLists (s : Session) (todoListId : Int) (l : TodoList)
    (h : Store.loadTodoList s.todoLists todoListId = some l) :
    getList s todoListId =
      .render (.list { id := l.id, title := l.title,
                       todos := .todoLists (Store.sortedTodoLists s.todoLists) } none []) := by
  simp [getList, h]

/-- The toggle handler never redirects and never queues a flash message. -/
theorem postToggle_no_success (s : Session) (todoListId todoId : Int) :
    (∀ p, (postToggle s todoListId todoId).1 ≠ .redirect p) ∧
    (postToggle s todoListId todoId).2.flash = s.flash := by
  cases ht : (Store.toggleDoneTodo s.todoLists todoListId todoId).1
  · simp [postToggle, ht]
  · cases hl : Store.loadTodo (Store.toggleDoneTodo s.todoLists todoListId todoId).2
        todoListId todoId with
    | none => simp [postToggle, ht, hl]
    | some todo => cases hd : todo.done <;> simp [postToggle, ht, hl, hd]

/-! ## Properties of the handlers -/

/-- C1: for a submitted title whose trimmed form has 1 to 100 characters,
`POST /lists` answers with the duplicate-title error exactly when some list of
the session has the trimmed title; in that case the collection is unchanged,
and otherwise one new, empty list with the trimmed title is appended. -/
theorem postLists_duplicate_iff (newId : Int) (s : Session) (rawTitle : String)
    (h1 : 1 ≤ (trim rawTitle).length) (h2 : (trim rawTitle).length ≤ 100) :
    ((postLists newId s rawTitle).1 =
        .render (.newList (s.flash ++ [("error", "List title must be unique.")])
          (trim rawTitle)) ↔
      ∃ l ∈ s.todoLists, l.title = trim rawTitle) ∧
    ((∃ l ∈ s.todoLists, l.title = trim rawTitle) →
      (postLists newId s rawTitle).2.todoLists = s.todoLists) ∧
    ((¬ ∃ l ∈ s.todoLists, l.title = trim rawTitle) →
      (postLists newId s rawTitle).1 = .redirect .lists ∧
      ∃ l : TodoList, l.title = trim rawTitle ∧ l.todos = [] ∧
        (postLists newId s rawTitle).2.todoLists = s.todoLists ++ [l]) := by
  have herr := todoListTitleErrors_of_length s.todoLists (trim rawTitle) h1 h2
  have hu := titleIsUnique_iff s.todoLists (trim rawTitle)
  by_cases hd : ∃ l ∈ s.todoLists, l.title = trim rawTitle
  · have hf : titleIsUnique s.todoLists (trim rawTitle) = false := by
      cases h : titleIsUnique s.todoLists (trim rawTitle) with
      | false => rfl
      | true => exact absurd hd (hu.1 h)
    have hp : postLists newId s rawTitle =
        (.render (.newList (s.flash ++ [("error", "List title must be unique.")])
          (trim rawTitle)), { s with flash := [] }) := by
      simp [postLists, herr, hf, flashErrors, Session.takeFlash, Session.addFlash]
    refine ⟨?_, ?_, ?_⟩
    · rw [hp]; exact ⟨fun _ => hd, fun _ => rfl⟩
    · intro _; rw [hp]
    · intro h; exact absurd hd h
  · have ht : titleIsUnique s.todoLists (trim rawTitle) = true := hu.2 hd
    have hp : postLists newId s rawTitle =
        (.redirect .lists,
          ({ s with todoLists := s.todoLists ++ [TodoList.create newId (trim rawTitle)] }
            : Session).addFlash "success" "The todo list has been created.") := by
      simp [postLists, herr, ht]
    refine ⟨?_, ?_, ?_⟩
    · rw [hp]
      constructor
      · intro h; cases h
      · intro h; exact absurd h hd
    · intro h; exact absurd h hd
    · intro _
      rw [hp]
      exact ⟨rfl, TodoList.create newId (trim rawTitle), rfl, rfl, rfl⟩

/-- Witness for C1: creating "Groceries", and creating "Work" again, in the
sample session. -/
theorem postLists_duplicate_iff_witness :
    (1 ≤ (trim "  Groceries ").length ∧ (trim "  Groceries ").length ≤ 100) ∧
    (¬ ∃ l ∈ sampleSession.todoLists, l.title = trim "  Groceries ") ∧
    ((postLists 3 sampleSession "  Groceries ").1 = .redirect .lists ∧
      ∃ l : TodoList, l.title = trim "  Groceries " ∧ l.todos = [] ∧
        (postLists 3 sampleSession "  Groceries ").2.todoLists =
          sampleSession.todoLists ++ [l]) :=
  have hn : ¬ ∃ l ∈ sampleSession.todoLists, l.title = trim "  Groceries " := by decide
  ⟨⟨by decide, by decide⟩, hn,
    (postLists_duplicate_iff 3 sampleSession "  Groceries " (by decide) (by decide)).2.2 hn⟩

/-- C5: `POST /lists/:todoListId/destroy` removes the first list with the id and
keeps every other list in place, so the collection gets shorter by one and the
handler redirects to `/lists`; when no list has the id the session is
unchanged and the handler passes `Error("Not found.")` on. -/
theorem postListsDestroy_spec (s : Session) (todoListId : Int) :
    ((∃ l ∈ s.todoLists, l.id = todoListId) →
      (postListsDestroy s todoListId).1 = .redirect .lists ∧
      (postListsDestroy s todoListId).2.todoLists.length + 1 = s.todoLists.length ∧
      ∃ pre l post, s.todoLists = pre ++ l :: post ∧ l.id = todoListId ∧
        (∀ x ∈ pre, x.id ≠ todoListId) ∧
        (postListsDestroy s todoListId).2.todoLists = pre ++ post) ∧
    ((¬ ∃ l ∈ s.todoLists, l.id = todoListId) →
      postListsDestroy s todoListId = (.next (.error "Not found."), s)) := by
  constructor
  · rintro ⟨l, hl, hid⟩
    cases hi : findIndex (fun todoList : TodoList => todoList.id == todoListId) s.todoLists with
    | none =>
      have := (findIndex_none _ _).1 hi l hl
      simp [hid] at this
    | some i =>
      obtain ⟨pre, x, post, hxs, hx, hpre, her⟩ := findIndex_some _ _ i hi
      have hp : (postListsDestroy s todoListId).2.todoLists = pre ++ post := by
        simp [postListsDestroy, hi, Session.addFlash, her]
      refine ⟨by simp [postListsDestroy, hi], ?_, pre, x, post, hxs, by simpa using hx, ?_, hp⟩
      · rw [hp, hxs]; simp; omega
      · intro y hy
        simpa using hpre y hy
  · intro h
    have hi : findIndex (fun todoList : TodoList => todoList.id == todoListId) s.todoLists
        = none := by
      rw [findIndex_none]
      intro x hx
      by_contra hc
      exact h ⟨x, hx, by simpa using hc⟩
    simp [postListsDestroy, hi]

/-- C10: `GET /lists` renders the lists returned by `sortedTodoLists` together
with one `todosInfo` entry per list, in the same order; the entry of a list
holds the number of its todos and the number of its done todos, the second
is at most the first, and they are equal exactly when every todo is done. -/
theorem getLists_todosInfo (s : Session) :
    ∃ todosInfo : List TodosInfo,
      getLists s = .render (.lists (Store.sortedTodoLists s.todoLists) todosInfo) ∧
      todosInfo.length = (Store.sortedTodoLists s.todoLists).length ∧
      List.Forall₂
        (fun (l : TodoList) (e : TodosInfo) =>
          e.countAllTodos = l.todos.length ∧
          e.countDoneTodos = l.todos.countP (fun todo => todo.done) ∧
          0 ≤ e.countDoneTodos ∧ e.countDoneTodos ≤ e.countAllTodos ∧
          (e.countDoneTodos = e.countAllTodos ↔ ∀ todo ∈ l.todos, todo.done = true))
        (Store.sortedTodoLists s.todoLists) todosInfo := by
  refine ⟨_, rfl, by simp, ?_⟩
  rw [List.forall₂_map_right_iff, List.forall₂_same]
  intro l _
  refine ⟨rfl, by rw [List.countP_eq_length_filter], Nat.zero_le _,
    List.length_filter_le _ _, ?_⟩
  exact List.filter_length_eq_length

/-- C2, as stated, fails: renaming the list "Work" to its own title "Work"
makes the uniqueness validator report a duplicate, because the list being
renamed is part of the collection it searches; the route does not redirect,
neither as written nor with the lookup by id in the place of line 265. -/
theorem rename_to_own_title_counterexample :
    workList ∈ sampleSession.todoLists ∧ trim "Work" = workList.title ∧
    todoListTitleErrors sampleSession.todoLists (trim "Work") =
      ["List title must be unique."] ∧
    (postListsEdit sampleSession 1 "Work").1 ≠ .redirect (.list 1) ∧
    (postListsEditWith findTodoList sampleSession 1 "Work").1 =
      .render (.editList [("error", "List title must be unique.")] "Work" workList) := by
  decide

/-- C2, amended: for a list `l` of the session, a request to rename a list to
the current title of `l` (as trimmed) fails validation with "List title must be
unique.", since the uniqueness check searches every list of the session, the
renamed one included; whatever line 265 looks up, the route issues no redirect
and the collection stays as it was. -/
theorem postListsEdit_own_title_rejected
    (lookup : Int → List TodoList → Except JsError (Option TodoList))
    (s : Session) (l : TodoList) (todoListId : Int) (rawTitle : String)
    (hl : l ∈ s.todoLists) (ht : trim rawTitle = l.title) :
    "List title must be unique." ∈ todoListTitleErrors s.todoLists (trim rawTitle) ∧
    (∀ p, (postListsEditWith lookup s todoListId rawTitle).1 ≠ .redirect p) ∧
    (postListsEditWith lookup s todoListId rawTitle).2.todoLists = s.todoLists := by
  have hu : titleIsUnique s.todoLists (trim rawTitle) = false := by
    cases h : titleIsUnique s.todoLists (trim rawTitle) with
    | false => rfl
    | true => exact absurd ⟨l, hl, ht.symm⟩ ((titleIsUnique_iff _ _).1 h)
  have hm : "List title must be unique." ∈ todoListTitleErrors s.todoLists (trim rawTitle) := by
    simp [todoListTitleErrors, hu]
  have he : (todoListTitleErrors s.todoLists (trim rawTitle)).isEmpty = false := by
    cases hx : todoListTitleErrors s.todoLists (trim rawTitle) with
    | nil => rw [hx] at hm; cases hm
    | cons a as => rfl
  exact ⟨hm, postListsEditWith_invalid lookup s todoListId rawTitle he⟩

/-- Witness for C2: renaming "Work" to " Work" in the sample session, with the
lookup by id. -/
theorem postListsEdit_own_title_rejected_witness :
    (workList ∈ sampleSession.todoLists ∧ trim " Work" = workList.title) ∧
    "List title must be unique." ∈ todoListTitleErrors sampleSession.todoLists (trim " Work") ∧
    (∀ p, (postListsEditWith findTodoList sampleSession 1 " Work").1 ≠ .redirect p) ∧
    (postListsEditWith findTodoList sampleSession 1 " Work").2.todoLists =
      sampleSession.todoLists :=
  ⟨⟨by decide, by decide⟩,
    postListsEdit_own_title_rejected findTodoList sampleSession workList 1 " Work"
      (by decide) (by decide)⟩

/-- C3, at the request that renames "Work" (id 1) to the title of "Home": the
validators record "List title must be unique.", but the handler ends in the
`ReferenceError` of line 265 and the error handler answers 404 with that
error's message; the session is unchanged. -/
theorem postListsEdit_other_title_raises :
    todoListTitleErrors sampleSession.todoLists (trim " Home ") =
      ["List title must be unique."] ∧
    postListsEdit sampleSession 1 " Home " =
      (.thrown (.referenceError "loadTodoList"), sampleSession) ∧
    errorHandler (.referenceError "loadTodoList") = (404, "loadTodoList is not defined") := by
  decide

/-- C4: when the titles of the session's lists are pairwise distinct, they are
still pairwise distinct after `POST /lists`, after `POST /lists/:id/edit`
(whatever line 265 looks up) and after `POST /lists/:id/destroy`, for every
submitted title and every id. -/
theorem titles_nodup_preserved
    (lookup : Int → List TodoList → Except JsError (Option TodoList))
    (newId : Int) (s : Session) (todoListId : Int) (rawTitle : String)
    (h : (titles s.todoLists).Nodup) :
    (titles (postLists newId s rawTitle).2.todoLists).Nodup ∧
    (titles (postListsEditWith lookup s todoListId rawTitle).2.todoLists).Nodup ∧
    (titles (postListsEdit s todoListId rawTitle).2.todoLists).Nodup ∧
    (titles (postListsDestroy s todoListId).2.todoLists).Nodup :=
  ⟨postLists_nodup newId s rawTitle h,
    postListsEditWith_nodup lookup s todoListId rawTitle h,
    postListsEditWith_nodup loadTodoList s todoListId rawTitle h,
    postListsDestroy_nodup s todoListId h⟩

/-- Witness for C4: the sample session, a rename of list 1 to "Office". -/
theorem titles_nodup_preserved_witness :
    (titles sampleSession.todoLists).Nodup ∧
    (titles (postListsEditWith findTodoList sampleSession 1 "Office").2.todoLists
      = ["Office", "Home"]) ∧
    (titles (postLists 3 sampleSession "Office").2.todoLists).Nodup ∧
    (titles (postListsEditWith findTodoList sampleSession 1 "Office").2.todoLists).Nodup ∧
    (titles (postListsEdit sampleSession 1 "Office").2.todoLists).Nodup ∧
    (titles (postListsDestroy sampleSession 1).2.todoLists).Nodup :=
  ⟨by decide, by decide,
    titles_nodup_preserved findTodoList 3 sampleSession 1 "Office" (by decide)⟩

/-- When the store hands out copies, the validation-failure branch of the
create-todo handler leaves every stored list as it was. -/
theorem postTodos_copy_keeps_todoLists (newId : Int) (s : Session) (todoListId : Int)
    (rawTitle : String) (he : (todoTitleErrors (trim rawTitle)).isEmpty = false) :
    (postTodos false newId s todoListId rawTitle).2.todoLists = s.todoLists := by
  cases hl : Store.loadTodoList s.todoLists todoListId with
  | none => simp [postTodos, hl]
  | some todoList =>
    simp [postTodos, hl, he, Session.takeFlash, flashErrors_todoLists]

/-- When the store hands out the stored list, the same branch stores the sorted
todos: at `POST /lists/1/todos` with a blank title in the sample session the
stored sequence changes from "Email", "Call" to "Call", "Email". -/
theorem postTodos_shared_reorders_todoLists :
    (Store.loadTodoList sampleSession.todoLists 1).map TodoList.todos =
      some [{ id := 1, title := "Email", done := true },
            { id := 2, title := "Call", done := false }] ∧
    (Store.loadTodoList (postTodos true 3 sampleSession 1 "  ").2.todoLists 1).map
        TodoList.todos =
      some [{ id := 2, title := "Call", done := false },
            { id := 1, title := "Email", done := true }] ∧
    (postTodos false 3 sampleSession 1 "  ").2.todoLists = sampleSession.todoLists := by
  decide

/-- C7, at the request `GET /lists/1` in the sample session: the `todos`
rendered are the session's todo lists in list order ("Home", "Work"), not the
todos of "Work" in todo order ("Call", "Email"). -/
theorem getList_renders_lists_not_todos :
    getList sampleSession 1 =
      .render (.list { id := 1, title := "Work", todos := .todoLists [homeList, workList] }
        none []) ∧
    Store.sortedTodos workList =
      [{ id := 2, title := "Call", done := false },
       { id := 1, title := "Email", done := true }] ∧
    getList sampleSession 1 ≠
      .render (.list { id := 1, title := "Work", todos := .todos (Store.sortedTodos workList) }
        none []) := by
  decide

/-- C8, at the request that toggles todo 2 of list 1 in the sample session:
the store reports the toggle as done and the item is now done, yet the handler
ends in the `ReferenceError` for `title`, with no flash message and no
redirect; the error handler answers 404 with that error's message. -/
theorem postToggle_raises_after_toggle :
    (Store.toggleDoneTodo sampleSession.todoLists 1 2).1 = true ∧
    Store.loadTodo (postToggle sampleSession 1 2).2.todoLists 1 2 =
      some { id := 2, title := "Call", done := true } ∧
    (postToggle sampleSession 1 2).1 = .thrown (.referenceError "title") ∧
    (postToggle sampleSession 1 2).2.flash = [] ∧
    errorHandler (.referenceError "title") = (404, "title is not defined") := by
  decide

/-- C9, at the call `loadTodo(1, 2, [workList])`: the module-level `loadTodo`
raises the `ReferenceError` of line 53, where a lookup by id would have
returned the todo "Call"; on the empty collection it raises as well instead of
returning `undefined`. -/
theorem loadTodo_raises_on_sample :
    loadTodo 1 2 [workList] = .error (.referenceError "loadTodoList") ∧
    loadTodo 1 2 [] = .error (.referenceError "loadTodoList") ∧
    loadTodoWith findTodoList 1 2 [workList] =
      .ok (some { id := 2, title := "Call", done := false }) :=
  ⟨rfl, rfl, rfl⟩

end Todos
